import Mathlib

/-!
Verification of the pinterest client core: scope resolution, OAuth2
configuration building, authorization-URL generation, token exchange and
client session construction, embedded shallowly from `src/client.rs`.

The external `oauth2` crate is an opaque collaborator of the repository;
its configuration object is modelled here as a record whose operations
(`add_scope` appends, `set_redirect_url` sets) follow the interface the
repository relies on, and whose authorization-URL rendering is modelled
from the spec (section 6) and pinned by the repository's own test string.
-/

namespace Oauth2

/-- Opaque access token returned by the token-exchange call. -/
structure Token where
  value : String
deriving Repr, DecidableEq

/-- Opaque error produced by the external OAuth2 layer on a failed exchange. -/
structure TokenError where
  msg : String
deriving Repr, DecidableEq

/-- The external OAuth2 configuration object: client credentials, endpoint
URLs, redirect URL and an ordered scope list. -/
structure Config where
  client_id : String
  client_secret : String
  authorize_url : String
  token_url : String
  redirect_url : String
  scopes : List String
deriving Repr, DecidableEq

/-- `oauth2::Config::new(id, secret, auth_url, token_url)`: fresh
configuration with empty redirect URL and no scopes. -/
def Config.new (id secret auth tok : String) : Config :=
  { client_id := id, client_secret := secret, authorize_url := auth,
    token_url := tok, redirect_url := "", scopes := [] }

/-- `oauth2::Config::add_scope`: appends one scope string to the list. -/
def Config.add_scope (c : Config) (s : String) : Config :=
  { c with scopes := c.scopes ++ [s] }

/-- `oauth2::Config::set_redirect_url`: sets the redirect URL. -/
def Config.set_redirect_url (c : Config) (r : String) : Config :=
  { c with redirect_url := r }

/-- Uppercase hexadecimal digit for a value below 16. -/
def hexDigit (n : Nat) : Char :=
  if n < 10 then Char.ofNat (48 + n) else Char.ofNat (55 + n)

/-- Characters left unescaped by application/x-www-form-urlencoded
serialization: ASCII alphanumerics and `*-._`. -/
def isUnreserved (c : Char) : Bool :=
  (c.toNat ≥ 48 && c.toNat ≤ 57) || (c.toNat ≥ 65 && c.toNat ≤ 90) ||
  (c.toNat ≥ 97 && c.toNat ≤ 122) || c = '*' || c = '-' || c = '.' || c = '_'

/-- UTF-8 byte sequence of a character. -/
def utf8Bytes (c : Char) : List Nat :=
  let n := c.toNat
  if n < 128 then [n]
  else if n < 2048 then [192 + n / 64, 128 + n % 64]
  else if n < 65536 then [224 + n / 4096, 128 + (n / 64) % 64, 128 + n % 64]
  else [240 + n / 262144, 128 + (n / 4096) % 64, 128 + (n / 64) % 64, 128 + n % 64]

/-- Percent-escape of one byte: `%XY` with uppercase hex digits. -/
def escapeByte (b : Nat) : List Char :=
  ['%', hexDigit (b / 16), hexDigit (b % 16)]

/-- Form-urlencoding of one character: space becomes `+`, unreserved
characters pass through, everything else is percent-escaped bytewise. -/
def formEncodeChar (c : Char) : List Char :=
  if c = ' ' then ['+']
  else if isUnreserved c then [c]
  else ((utf8Bytes c).map escapeByte).flatten

/-- Form-urlencoding of a query-string value. -/
def formEncode (s : String) : String :=
  String.mk ((s.toList.map formEncodeChar).flatten)

/-- Modelled from the spec: the authorization URL rendered by the external
OAuth2 configuration object (`oauth2::Config::authorize_url`), whose code is
not part of this repository. Query parameters `client_id`, `scope`
(space-joined in list order, then form-encoded so the join shows as `+`),
`response_type=code` and the percent-encoded `redirect_uri`, appended to the
authorize endpoint. -/
def Config.authorizeUrl (c : Config) : String :=
  c.authorize_url ++ "?client_id=" ++ formEncode c.client_id ++
  "&scope=" ++ formEncode (String.intercalate " " c.scopes) ++
  "&response_type=code" ++
  "&redirect_uri=" ++ formEncode c.redirect_url

/-- Result of `oauth2::Config::exchange_code` on the network: success with a
token, or a token error. The network behaviour is a parameter of the model. -/
abbrev Exchange : Type := Oauth2.Config → String → Except Oauth2.TokenError Oauth2.Token

end Oauth2

namespace Pinterest

/-- `const API_BASE: &str` from `src/client.rs`. -/
def API_BASE : String := "https://api.pinterest.com/v1/"

/-- `pub struct Scope`: the four permission flags, in declaration order. -/
structure Scope where
  read_public : Bool
  write_public : Bool
  read_relationships : Bool
  write_relationships : Bool
deriving Repr, DecidableEq

/-- `impl Default for Scope`: all four flags false. -/
def Scope.default : Scope :=
  { read_public := false, write_public := false,
    read_relationships := false, write_relationships := false }

/-- Number of flags set to true in a `Scope`. -/
def Scope.trueCount (s : Scope) : Nat :=
  (if s.read_public then 1 else 0) + (if s.write_public then 1 else 0) +
  (if s.read_relationships then 1 else 0) + (if s.write_relationships then 1 else 0)

/-- `pub enum PinterestError`: the single variant wrapping an OAuth2 token
error. -/
inductive PinterestError : Type where
  | Token : Oauth2.TokenError → PinterestError
deriving Repr, DecidableEq

/-- `impl From<oauth2::TokenError> for PinterestError`. -/
def PinterestError.fromTokenError (e : Oauth2.TokenError) : PinterestError :=
  PinterestError.Token e

/-- `pub struct Config<'a>`: the Pinterest-specific configuration consumed by
`TokenBuilder::new`. -/
structure Config where
  client_id : String
  client_secret : String
  authorize_url : String
  token_url : String
  redirect_url : String
  scope : Scope
deriving Repr, DecidableEq

/-- `pub struct TokenBuilder`: owns the resolved OAuth2 configuration. -/
structure TokenBuilder where
  config : Oauth2.Config
deriving Repr, DecidableEq

/-- `TokenBuilder::new` from `src/client.rs`: builds the OAuth2 configuration
from the four strings, adds each scope whose flag is true in source order
(read_public, read_relationships, write_public, write_relationships), then
sets the redirect URL. -/
def TokenBuilder.new (config : Config) : TokenBuilder :=
  let oauth_config := Oauth2.Config.new config.client_id config.client_secret
    config.authorize_url config.token_url
  let oauth_config := if config.scope.read_public
    then oauth_config.add_scope "read_public" else oauth_config
  let oauth_config := if config.scope.read_relationships
    then oauth_config.add_scope "read_relationships" else oauth_config
  let oauth_config := if config.scope.write_public
    then oauth_config.add_scope "write_public" else oauth_config
  let oauth_config := if config.scope.write_relationships
    then oauth_config.add_scope "write_relationships" else oauth_config
  let oauth_config := oauth_config.set_redirect_url config.redirect_url
  { config := oauth_config }

/-- `TokenBuilder::exchange_code`: calls the underlying exchange on the owned
configuration; `?` converts a `TokenError` through
`PinterestError.fromTokenError`. -/
def TokenBuilder.exchange_code (ex : Oauth2.Exchange) (tb : TokenBuilder)
    (code : String) : Except PinterestError Oauth2.Token :=
  match ex tb.config code with
  | Except.ok t => Except.ok t
  | Except.error e => Except.error (PinterestError.fromTokenError e)

/-- The `&self` receiver of `TokenBuilder::exchange_code` as an explicit
state-passing step: a shared borrow cannot mutate the builder, so the
post-state is the pre-state. -/
def TokenBuilder.exchange_codeStep (ex : Oauth2.Exchange) (tb : TokenBuilder)
    (code : String) : Except PinterestError Oauth2.Token × TokenBuilder :=
  (TokenBuilder.exchange_code ex tb code, tb)

/-- The execution context (tokio `Core` event loop), an opaque external
resource; its observable content is irrelevant to the claims. -/
structure Core where
  unit : Unit := ()
deriving Repr, DecidableEq

/-- Failure value of creating the execution context (`Core::new` returns
`io::Result` in the external library). -/
structure CoreError where
  msg : String
deriving Repr, DecidableEq

/-- The execution-context value produced by a successful `Core::new`. -/
def Core.new0 : Core := {}

/-- The HTTP transport (`hyper::Client`), opaque, bound to the handle of the
execution context it was created from. -/
structure HyperClient where
  boundTo : Core
deriving Repr, DecidableEq

/-- `hyper::Client::new(&core.handle())`. -/
def HyperClient.new (core : Core) : HyperClient :=
  { boundTo := core }

/-- `pub struct Client`: optional token, HTTP transport, execution context. -/
structure Client where
  token : Option Oauth2.Token
  hyper : HyperClient
  core : Core
deriving Repr, DecidableEq

/-- `impl Default for Client` with `Core::new()` succeeding: no token, a
fresh transport bound to the fresh execution context. -/
def Client.default : Client :=
  { token := none, hyper := HyperClient.new Core.new0, core := Core.new0 }

/-- `impl Default for Client` with the outcome of `Core::new()` made
explicit: the source calls `.unwrap()` on it, so a failure aborts
construction (modelled as `none`) instead of returning any error value. -/
def Client.defaultOf : Except CoreError Core → Option Client
  | Except.error _ => none
  | Except.ok core =>
      some { token := none, hyper := HyperClient.new core, core := core }

/-- `Client::new(token)` from `src/client.rs`:
`Client { token: Some(token), .. Client::default() }`. -/
def Client.new (token : Oauth2.Token) : Client :=
  { Client.default with token := some token }

/-- `Client::new` with the outcome of the delegated `Client::default` (and
hence of `Core::new()`) made explicit. -/
def Client.newOf (token : Oauth2.Token) (r : Except CoreError Core) :
    Option Client :=
  (Client.defaultOf r).map (fun c => { c with token := some token })

/-- The implemented operations of the source, parameterized by an arbitrary
API base string. Faithful to the source: no implemented method reads
`API_BASE`, so none of them consults the argument. -/
def opsWithBase (_base : String) :
    (Config → TokenBuilder) ×
    (Oauth2.Exchange → TokenBuilder → String → Except PinterestError Oauth2.Token) ×
    Scope × Client × (Oauth2.Token → Client) :=
  (TokenBuilder.new, TokenBuilder.exchange_code, Scope.default, Client.default,
    Client.new)

end Pinterest

open Pinterest Oauth2 in
/-- Claim C1: for every `Scope`, `TokenBuilder::new` adds exactly the scope
identifier strings whose flags are true, skipping false flags, in the fixed
order read_public, read_relationships, write_public, write_relationships;
with exactly k of the four flags true the scope list has length k. -/
theorem c1_scope_resolution (cfg : Pinterest.Config) :
    (TokenBuilder.new cfg).config.scopes =
      (if cfg.scope.read_public then ["read_public"] else []) ++
      (if cfg.scope.read_relationships then ["read_relationships"] else []) ++
      (if cfg.scope.write_public then ["write_public"] else []) ++
      (if cfg.scope.write_relationships then ["write_relationships"] else []) ∧
    (TokenBuilder.new cfg).config.scopes.length = cfg.scope.trueCount := by
  obtain ⟨ci, cs, au, tu, ru, rp, wp, rr, wr⟩ := cfg
  cases rp <;> cases wp <;> cases rr <;> cases wr <;> exact ⟨rfl, rfl⟩

set_option maxRecDepth 4000 in
open Pinterest Oauth2 in
/-- Claim C2: on the literal test fixture of `src/client.rs`, building a
`TokenBuilder` from the `Config` and reading back its authorize URL yields
exactly the expected literal string. -/
theorem c2_authorize_url_roundtrip :
    (TokenBuilder.new
      { client_id := "myclientid"
        client_secret := "myclientsecret"
        authorize_url := "https://example.com/authorize"
        token_url := "https://example.com/token"
        redirect_url := "https://mysite.com:8000"
        scope := { read_public := true, write_public := false,
                   read_relationships := true, write_relationships := false }
      }).config.authorizeUrl =
      "https://example.com/authorize?client_id=myclientid&scope=read_public+read_relationships&response_type=code&redirect_uri=https%3A%2F%2Fmysite.com%3A8000" := by
  rfl

open Pinterest Oauth2 in
/-- Claim C3: `exchange_code` returns the token of a successful underlying
exchange unchanged, and wraps a failed exchange's error as
`PinterestError.Token`, unmodified except for the wrapping. -/
theorem c3_exchange_code_propagation (ex : Oauth2.Exchange)
    (tb : TokenBuilder) (code : String) :
    (∀ t, ex tb.config code = Except.ok t →
      TokenBuilder.exchange_code ex tb code = Except.ok t) ∧
    (∀ e, ex tb.config code = Except.error e →
      TokenBuilder.exchange_code ex tb code =
        Except.error (PinterestError.Token e)) := by
  constructor
  · intro t h
    simp [TokenBuilder.exchange_code, h]
  · intro e h
    simp [TokenBuilder.exchange_code, h, PinterestError.fromTokenError]

open Pinterest Oauth2 in
/-- Witness for C3 at a concrete succeeding and a concrete failing
exchange. -/
theorem c3_exchange_code_propagation_witness :
    TokenBuilder.exchange_code (fun _ _ => Except.ok ⟨"tok"⟩)
      ⟨Oauth2.Config.new "a" "b" "c" "d"⟩ "code" = Except.ok ⟨"tok"⟩ ∧
    TokenBuilder.exchange_code (fun _ _ => Except.error ⟨"bad"⟩)
      ⟨Oauth2.Config.new "a" "b" "c" "d"⟩ "code" =
      Except.error (PinterestError.Token ⟨"bad"⟩) :=
  ⟨(c3_exchange_code_propagation (fun _ _ => Except.ok ⟨"tok"⟩)
      ⟨Oauth2.Config.new "a" "b" "c" "d"⟩ "code").1 ⟨"tok"⟩ rfl,
   (c3_exchange_code_propagation (fun _ _ => Except.error ⟨"bad"⟩)
      ⟨Oauth2.Config.new "a" "b" "c" "d"⟩ "code").2 ⟨"bad"⟩ rfl⟩

open Pinterest Oauth2 in
/-- Claim C4: `Client::default()` has no token, and for every token `t`,
`Client::new(t)` stores exactly `some t` and is default construction followed
by setting the token, its remaining fields equal to the default's. -/
theorem c4_client_construction :
    Client.default.token = none ∧
    (∀ t : Oauth2.Token,
      (Client.new t).token = some t ∧
      Client.new t = { Client.default with token := some t } ∧
      (Client.new t).hyper = Client.default.hyper ∧
      (Client.new t).core = Client.default.core) :=
  ⟨rfl, fun _ => ⟨rfl, rfl, rfl, rfl⟩⟩

open Pinterest Oauth2 in
/-- Claim C5: `PinterestError` has the single variant `Token`, and whenever
`exchange_code` fails the error is that variant, wrapping exactly the error
the underlying exchange produced. -/
theorem c5_single_error_kind :
    (∀ pe : PinterestError, ∃ e, pe = PinterestError.Token e) ∧
    (∀ (ex : Oauth2.Exchange) (tb : TokenBuilder) (code : String)
      (pe : PinterestError),
      TokenBuilder.exchange_code ex tb code = Except.error pe →
      ∃ te, pe = PinterestError.Token te ∧
        ex tb.config code = Except.error te) := by
  constructor
  · intro pe
    cases pe with
    | Token e => exact ⟨e, rfl⟩
  · intro ex tb code pe h
    unfold TokenBuilder.exchange_code at h
    cases heq : ex tb.config code with
    | ok t => rw [heq] at h; exact absurd h (by simp)
    | error e =>
        rw [heq] at h
        simp [PinterestError.fromTokenError] at h
        exact ⟨e, h.symm, rfl⟩

open Pinterest Oauth2 in
/-- Witness for C5 at a concrete failing exchange. -/
theorem c5_single_error_kind_witness :
    ∃ te, PinterestError.Token ⟨"bad"⟩ = PinterestError.Token te ∧
      (fun (_ : Oauth2.Config) (_ : String) =>
          (Except.error ⟨"bad"⟩ : Except Oauth2.TokenError Oauth2.Token))
        (TokenBuilder.mk (Oauth2.Config.new "a" "b" "c" "d")).config "code" =
        Except.error te :=
  c5_single_error_kind.2
    (fun _ _ => Except.error ⟨"bad"⟩)
    (TokenBuilder.mk (Oauth2.Config.new "a" "b" "c" "d")) "code"
    (PinterestError.Token ⟨"bad"⟩) rfl

open Pinterest in
/-- Claim C6: `Scope::default()` has all four flags false. -/
theorem c6_scope_default :
    Scope.default.read_public = false ∧
    Scope.default.write_public = false ∧
    Scope.default.read_relationships = false ∧
    Scope.default.write_relationships = false :=
  ⟨rfl, rfl, rfl, rfl⟩

open Pinterest Oauth2 in
/-- Claim C7: `TokenBuilder::new` is a pure total construction: for every
`Config` it returns the fully determined `TokenBuilder` below, with no error
return and no other effect. -/
theorem c7_tokenbuilder_new_total (cfg : Pinterest.Config) :
    TokenBuilder.new cfg = TokenBuilder.mk
      { client_id := cfg.client_id
        client_secret := cfg.client_secret
        authorize_url := cfg.authorize_url
        token_url := cfg.token_url
        redirect_url := cfg.redirect_url
        scopes :=
          (if cfg.scope.read_public then ["read_public"] else []) ++
          (if cfg.scope.read_relationships then ["read_relationships"] else []) ++
          (if cfg.scope.write_public then ["write_public"] else []) ++
          (if cfg.scope.write_relationships then ["write_relationships"] else [])
      } := by
  obtain ⟨ci, cs, au, tu, ru, rp, wp, rr, wr⟩ := cfg
  cases rp <;> cases wp <;> cases rr <;> cases wr <;> rfl

open Pinterest Oauth2 in
/-- Claim C8: `exchange_code` takes the builder by shared reference: the
builder after the call equals the builder before it, the owned configuration
is unchanged on success and on failure alike, and a repeated call observes
the same configuration and result. -/
theorem c8_builder_immutable (ex : Oauth2.Exchange) (tb : TokenBuilder)
    (code : String) :
    (TokenBuilder.exchange_codeStep ex tb code).2 = tb ∧
    (TokenBuilder.exchange_codeStep ex tb code).2.config = tb.config ∧
    TokenBuilder.exchange_codeStep ex
        (TokenBuilder.exchange_codeStep ex tb code).2 code =
      TokenBuilder.exchange_codeStep ex tb code :=
  ⟨rfl, rfl, rfl⟩

open Pinterest Oauth2 in
/-- Claim C9: `Client::default()` unwraps the result of creating the
execution context: a failed creation aborts construction (no client value,
modelled `none`) instead of returning any error value, and `Client::new`
inherits this through its delegation to `default`. -/
theorem c9_default_unwraps_core :
    (∀ e : CoreError, Client.defaultOf (Except.error e) = none) ∧
    (∀ core : Core, Client.defaultOf (Except.ok core) =
      some { token := none, hyper := HyperClient.new core, core := core }) ∧
    (∀ (t : Oauth2.Token) (e : CoreError),
      Client.newOf t (Except.error e) = none) ∧
    (∀ (t : Oauth2.Token) (core : Core),
      Client.newOf t (Except.ok core) =
        some { token := some t, hyper := HyperClient.new core, core := core }) :=
  ⟨fun _ => rfl, fun _ => rfl, fun _ _ => rfl, fun _ _ => rfl⟩

open Pinterest in
/-- Claim C10: the API base constant equals the literal string, and no
implemented operation depends on it: the operations parameterized by an
arbitrary base string coincide for any two bases. -/
theorem c10_api_base_unused :
    API_BASE = "https://api.pinterest.com/v1/" ∧
    ∀ b1 b2 : String, opsWithBase b1 = opsWithBase b2 :=
  ⟨rfl, fun _ _ => rfl⟩
